import Mathlib

/-!
Verification development for the ai-recruitment worker pipeline.

This file gives a shallow embedding of the asynchronous document-processing
pipeline of the repository (backend/app): the transient run records
(CVProfileRun / RoleProfileRun) kept in the persistent store, the manager
operations that read and write them (cv_profile_manager.py,
role_profile_manager.py, role_listing_manager.py), the three worker stage
functions (cv_processor.py, jd_processor.py, profiler.py), the derived
numeric aggregates of the profiler, the embedded-link recovery of the CV
stage, the rate limiter of the LLM/vision clients, and the pool construction
recovery scans.  Pure computations are translated as Lean functions; the
store-mutating pipeline code is translated as explicit state passing, and a
one-step event semantics `applyEvent` models the interleaving of producers
and worker threads (each dequeue-process cycle is one atomic event, matching
the store collaborator's per-key serialization described in the spec).

Python-specific behaviours that the claims depend on are modelled
explicitly:
* exceptions are an `Except`-style outcome threaded together with the store
  state (a raised error does not undo earlier writes);
* keyword-argument binding is modelled by `acceptsKwargs`: a call whose
  keyword names are not all parameter names of the callee raises TypeError
  before the callee body runs (this matters: cv_processor.py calls
  CVProfileManager.update_cv_profile with keyword `cv_id`, but the
  parameter is named `user_id`);
* attribute access on a `None` value raises AttributeError.

Timestamps are modelled as natural numbers supplied by the environment;
wall-clock time used by the rate limiter is modelled as rational numbers.
-/

namespace AIRecruit

/-! ## Status enums (services/users/schemas.py, services/roles/schemas.py) -/

/-- CVProfileRunStatus: COMPLETED / FAILED / PENDING (StrEnum in source). -/
inductive CVProfileRunStatus
  | completed
  | failed
  | pending
deriving DecidableEq, Repr

/-- RoleListingRunStatus: COMPLETED / FAILED / PENDING (StrEnum in source). -/
inductive RoleListingRunStatus
  | completed
  | failed
  | pending
deriving DecidableEq, Repr

/-! ## LLM output types (services/llm/types.py) -/

/-- Date: structured month/year from LLM analysis (types.py). -/
structure PyDate where
  month : Int
  year : Int
deriving DecidableEq, Repr

/-- Location: optional city/country (types.py). -/
structure Location where
  city : Option String := none
  country : Option String := none
deriving DecidableEq, Repr

/-- Level StrEnum (types.py). -/
inductive Level
  | entry_level
  | junior
  | mid_level
  | senior
  | executive
deriving DecidableEq, Repr

/-- EmploymentType StrEnum (types.py). -/
inductive EmploymentType
  | contract
  | full_time
  | internship
  | part_time
  | volunteer
deriving DecidableEq, Repr

/-- RoleMode StrEnum (types.py). -/
inductive RoleMode
  | hybrid
  | on_site
  | remote
deriving DecidableEq, Repr

/-- Certification (types.py). -/
structure Certification where
  field : Option String := none
  level : Option String := none
  name : Option String := none
deriving DecidableEq, Repr

/-- Award (types.py). -/
structure Award where
  date : Option PyDate := none
  description : Option String := none
  name : Option String := none
deriving DecidableEq, Repr

/-- ContactDetails (types.py). -/
structure ContactDetails where
  email : Option String := none
  phone_number : Option String := none
deriving DecidableEq, Repr

/-- Education (types.py). -/
structure Education where
  certification : Certification
  end_date : PyDate
  institution : Option String := none
  location : Location := {}
  start_date : PyDate
deriving DecidableEq, Repr

/-- Employment (types.py): an employment record with start/end dates; an
end-date year of 0 means the role is current. -/
structure Employment where
  organization_name : Option String := none
  end_date : PyDate
  location : Location := {}
  role : Option String := none
  start_date : PyDate
  summary : Option String := none
  type : Option EmploymentType := none
deriving DecidableEq, Repr

/-- CVProfile (types.py): structured LLM output for a résumé. -/
structure CVProfile where
  awards : List Award := []
  contact_details : ContactDetails := {}
  education_history : List Education := []
  employment_history : List Employment := []
  highlights : List String := []
  hobbies : List String := []
  industries : List String := []
  job_title : Option String := none
  level : Option Level := none
  location : Location := {}
  name : Option String := none
  nationality : Option String := none
  skills : List String := []
  spoken_languages : List String := []
  summary : Option String := none
  urls : List String := []
deriving DecidableEq, Repr

/-- RoleProfile (types.py): structured LLM output for a job listing.
`description` and `title` are required strings in the source. -/
structure RoleProfile where
  benefits : List String := []
  description : String
  employment_type : Option EmploymentType := none
  industry : Option String := none
  job_id : Option String := none
  level : Option Level := none
  location : Location := {}
  organization_name : Option String := none
  preferred_qualifications : List String := []
  requirements : List String := []
  role_mode : Option RoleMode := none
  salary : Option String := none
  title : String
  url : Option String := none
deriving DecidableEq, Repr

/-- Modelled from the spec: CVDescription, the CreativityAssessment value
object produced by the vision stage (its declaring file,
services/vision/types.py, is not among the provided sources; profiler.py
reads exactly the three sub-score fields creativity_score /
formatting_score / grammar_score, and the spec describes it as "the three
creativity sub-scores (creativity/formatting/grammar)", scored 0-10). -/
structure CVDescription where
  creativity_score : Int
  formatting_score : Int
  grammar_score : Int
deriving DecidableEq, Repr

/-! ## Run records (services/users/schemas.py, services/roles/schemas.py)

The CV-domain fields that CVProfileRun stores inline in the source
(awards .. urls) are bundled here as one `CVProfile` value `profile`;
CVProfileManager._create_cv_profile_run_from_cv_profile copies exactly
those fields from its `cv_profile` argument.  Likewise the JD-domain
fields of RoleProfileRun (benefits .. url) are bundled as `RoleDomain`. -/

/-- The JD-domain field bundle shared (by duck typing in the source) between
RoleProfile, RoleProfileRun and RoleListing: exactly the fields that
RoleProfileManager._create_role_profile_run_from_profile reads from its
`role_profile` argument. -/
structure RoleDomain where
  benefits : List String := []
  description : Option String := none
  employment_type : Option EmploymentType := none
  industry : Option String := none
  level : Option Level := none
  location : Location := {}
  organization_name : Option String := none
  preferred_qualifications : List String := []
  requirements : List String := []
  role_mode : Option RoleMode := none
  salary : Option String := none
  title : Option String := none
  url : Option String := none
deriving DecidableEq, Repr

/-- Projection used where the worker passes a RoleProfile (LLM output) as the
`role_profile` argument: description and title are required strings there. -/
def RoleProfile.domain (p : RoleProfile) : RoleDomain :=
  { benefits := p.benefits
    description := some p.description
    employment_type := p.employment_type
    industry := p.industry
    level := p.level
    location := p.location
    organization_name := p.organization_name
    preferred_qualifications := p.preferred_qualifications
    requirements := p.requirements
    role_mode := p.role_mode
    salary := p.salary
    title := some p.title
    url := p.url }

/-- CVProfileRun (schemas.py): transient record of one résumé run. -/
structure CVProfileRun where
  id : String
  created_at : Nat
  updated_at : Nat
  file_path : String
  status : CVProfileRunStatus
  status_comment : Option String := none
  average_tenure : Option ℚ := none
  creativity_score : Option Int := none
  formatting_score : Option Int := none
  grammar_score : Option Int := none
  years_experience : Option ℚ := none
  profile : CVProfile := {}
deriving DecidableEq, Repr

/-- RoleProfileRun (roles/schemas.py): transient record of one listing run. -/
structure RoleProfileRun where
  id : String
  created_at : Nat
  updated_at : Nat
  creator_id : String
  file_path : String
  job_id : Option String := none
  status : RoleListingRunStatus
  status_comment : Option String := none
  domain : RoleDomain := {}
deriving DecidableEq, Repr

/-- Duck-typed projection used where the worker passes the fetched
RoleProfileRun itself as the `role_profile` argument (the touch write in
jd_processor.py). -/
def RoleProfileRun.asDomain (r : RoleProfileRun) : RoleDomain := r.domain

/-- RoleListing (roles/schemas.py): the permanent listing entity. -/
structure RoleListing where
  id : String
  created_at : Nat
  updated_at : Nat
  creator_id : String
  domain : RoleDomain := {}
  embeddings : List ℚ := []
  is_active : Bool := true
  job_id : Option String := none
deriving DecidableEq, Repr

/-! ## Persistent store collaborator

The spec treats the store as a collaborator with keyed get/upsert/delete and
query-by-field (§1, §6); records are keyed by id and writes are last-writer
-wins upserts (§3).  Containers are modelled as lists holding at most one
record per id. -/

abbrev CVStore := List CVProfileRun
abbrev JDStore := List RoleProfileRun
abbrev ListingStore := List RoleListing

/-- Keyed upsert: replace the record with the same id, else append. -/
def upsertCV : CVStore → CVProfileRun → CVStore
  | [], r => [r]
  | x :: s, r => if x.id = r.id then r :: s else x :: upsertCV s r

/-- Keyed upsert for role profile runs. -/
def upsertJD : JDStore → RoleProfileRun → JDStore
  | [], r => [r]
  | x :: s, r => if x.id = r.id then r :: s else x :: upsertJD s r

/-- Keyed get (CVProfileManager.get_cv_profile). -/
def storeGetCV : CVStore → String → Option CVProfileRun
  | [], _ => none
  | x :: s, i => if x.id = i then some x else storeGetCV s i

/-- Keyed get (RoleProfileManager.get_role_profile). -/
def storeGetJD : JDStore → String → Option RoleProfileRun
  | [], _ => none
  | x :: s, i => if x.id = i then some x else storeGetJD s i

/-- Keyed delete (RoleProfileManager.delete_role_profile). -/
def storeDeleteJD : JDStore → String → JDStore
  | [], _ => []
  | x :: s, i => if x.id = i then s else x :: storeDeleteJD s i

/-- CVProfileManager.get_pending_cv_profiles: query for status = 'pending'. -/
def get_pending_cv_profiles (s : CVStore) : List CVProfileRun :=
  s.filter (fun r => r.status = CVProfileRunStatus.pending)

/-- RoleProfileManager.get_pending_role_profiles. -/
def get_pending_role_profiles (s : JDStore) : List RoleProfileRun :=
  s.filter (fun r => r.status = RoleListingRunStatus.pending)

/-! ## Exceptions (exceptions.py) and Python call binding -/

/-- The CVError subclass raised (CVFormatError / CVLengthError). -/
inductive CVErrKind
  | formatError
  | lengthError
deriving DecidableEq, Repr

/-- A CVError: message plus the item id it is bound to (exceptions.py). -/
structure CVErr where
  kind : CVErrKind
  msg : String
  cv_id : String
deriving DecidableEq, Repr

/-- The RoleListingError subclass raised (base / JDFormatError / JDLengthError). -/
inductive JDErrKind
  | listingError
  | formatError
  | lengthError
deriving DecidableEq, Repr

/-- A RoleListingError: message plus the item id it is bound to. -/
structure JDErr where
  kind : JDErrKind
  msg : String
  jd_id : String
deriving DecidableEq, Repr

/-- Exceptions that can cross a worker stage boundary. -/
inductive PyExc
  | cvError (e : CVErr)
  | jdError (e : JDErr)
  | llmInferenceError (msg : String)
  | typeError (msg : String)
  | attributeError (msg : String)
  | valueError (msg : String)
deriving DecidableEq, Repr

/-- A PyExc is a CV domain error iff it is a CVError (cv_processor.py
catches `except CVError` before the generic `except Exception`). -/
def PyExc.isCVError : PyExc → Bool
  | .cvError _ => true
  | _ => false

/-- A PyExc is a JD domain error iff it is a RoleListingError. -/
def PyExc.isJDError : PyExc → Bool
  | .jdError _ => true
  | _ => false

/-- Python keyword binding: a call binds iff every keyword used at the call
site is the name of a parameter of the callee; otherwise the call raises
TypeError("unexpected keyword argument") before the body runs. -/
def acceptsKwargs (params kwargs : List String) : Bool :=
  kwargs.all (fun k => params.contains k)

/-- A Python call through keyword binding: check the keywords against the
callee's parameter names, then run the callee body (a thunk, since in the
failing case the body is never entered). -/
def pyKwCall (params kwargs : List String) (body : Unit → Except PyExc α) :
    Except PyExc α :=
  if acceptsKwargs params kwargs then body ()
  else .error (.typeError "unexpected keyword argument")

/-! ## Configuration (config/__init__.py) -/

namespace Configuration

def CV_MAX_PAGES : Nat := 2

def JD_MAX_PAGES : Nat := 3

end Configuration

/-! ## Manager write operations

Python surface detail kept by the model: the parameter-name lists below are
the callees' actual (non-self) parameter names; worker call sites go
through `pyKwCall` with the keyword names they actually use. -/

/-- The parameter names of CVProfileManager.update_cv_profile. -/
def updateCVProfileParams : List String :=
  ["user_id", "cv_profile", "average_tenure", "creativity_score",
   "formatting_score", "grammar_score", "status", "status_comment",
   "years_experience"]

/-- The parameter names of RoleProfileManager.update_role_profile. -/
def updateRoleProfileParams : List String :=
  ["role_id", "role_profile", "creator_id", "status", "status_comment"]

/-- CVProfileManager.add_cv_profile: create a minimal PENDING run keyed by
the user id and upsert it. -/
def add_cv_profile (s : CVStore) (user_id file_path : String) (now : Nat) :
    CVStore :=
  upsertCV s
    { id := user_id
      created_at := now
      updated_at := now
      file_path := file_path
      status := CVProfileRunStatus.pending }

/-- RoleProfileManager.add_role_profile: create a minimal PENDING run. -/
def add_role_profile (s : JDStore) (role_id file_path creator_id : String)
    (now : Nat) : JDStore :=
  upsertJD s
    { id := role_id
      created_at := now
      updated_at := now
      creator_id := creator_id
      file_path := file_path
      status := RoleListingRunStatus.pending }

/-- CVProfileManager.update_cv_profile: fetch the existing run (ValueError
if absent), rebuild it from the given CVProfile via
_create_cv_profile_run_from_cv_profile (AttributeError if the cv_profile
argument is None, which the helper would dereference), preserve the
original created_at and file_path, and upsert.  The `status` parameter
defaults to COMPLETED in the source; every call site below passes the value
the Python call passes (or that default). -/
def update_cv_profile (s : CVStore) (user_id : String)
    (cv_profile : Option CVProfile) (average_tenure : Option ℚ)
    (creativity_score formatting_score grammar_score : Option Int)
    (status : CVProfileRunStatus) (status_comment : Option String)
    (years_experience : Option ℚ) (now : Nat) :
    Except PyExc CVStore :=
  match storeGetCV s user_id with
  | none => .error (.valueError s!"No CV profile found for user {user_id}")
  | some profile =>
    match cv_profile with
    | none => .error (.attributeError "NoneType has no CV profile fields")
    | some p =>
      .ok (upsertCV s
        { id := user_id
          created_at := profile.created_at
          updated_at := now
          file_path := profile.file_path
          status := status
          status_comment := status_comment
          average_tenure := average_tenure
          creativity_score := creativity_score
          formatting_score := formatting_score
          grammar_score := grammar_score
          years_experience := years_experience
          profile := p })

/-- RoleProfileManager.update_role_profile: fetch the existing run
(ValueError if absent), merge the JD-domain fields of the `role_profile`
argument over it (AttributeError if that argument is None), set creator_id,
status, status_comment and updated_at, keep id / created_at / file_path /
job_id from the existing run, upsert, and return the updated run. -/
def update_role_profile (s : JDStore) (role_id : String)
    (role_profile : Option RoleDomain) (creator_id : String)
    (status : RoleListingRunStatus) (status_comment : Option String)
    (now : Nat) : Except PyExc (JDStore × RoleProfileRun) :=
  match storeGetJD s role_id with
  | none => .error (.valueError s!"No role profile found with ID {role_id}")
  | some existing =>
    match role_profile with
    | none => .error (.attributeError "NoneType has no JD profile fields")
    | some d =>
      let updated : RoleProfileRun :=
        { existing with
          creator_id := creator_id
          status := status
          status_comment := status_comment
          updated_at := now
          domain := d }
      .ok (upsertJD s updated, updated)

/-- The embedding vector attached to a freshly promoted listing
(role_listing_manager.add_role_from_profile): only attempted when the run
has a truthy description; `embedResult = none` models the embedding service
failing, which is logged and swallowed, leaving the default empty vector. -/
def listingEmbeddings (run : RoleProfileRun)
    (embedResult : Option (List ℚ)) : List ℚ :=
  match run.domain.description with
  | some d => if d ≠ "" then embedResult.getD [] else []
  | none => []

/-- RoleListingManager.add_role_from_profile: ValueError unless the run is
COMPLETED; build a RoleListing carrying the run's domain fields (the
model_dump excludes status, id, type, partition_key, created_at,
updated_at and file_path; a fresh id and timestamps are generated),
best-effort embeddings, then add_role upserts it. -/
def add_role_from_profile (listings : ListingStore) (run : RoleProfileRun)
    (newId : String) (embedResult : Option (List ℚ)) (now : Nat) :
    Except PyExc (ListingStore × RoleListing) :=
  if run.status ≠ RoleListingRunStatus.completed then
    .error (.valueError "Cannot create role from incomplete profile")
  else
    let newRole : RoleListing :=
      { id := newId
        created_at := now
        updated_at := now
        creator_id := run.creator_id
        domain := run.domain
        embeddings := listingEmbeddings run embedResult
        is_active := true
        job_id := run.job_id }
    .ok (listings ++ [newRole], newRole)

/-! ## Profiler aggregates (workers/profiler.py)

Python's round() rounds half to even; the quotients here are exact
rationals, so the model computes with ℚ and an explicit half-to-even
rounding. -/

/-- Round half to even, as Python round() on an exact value: take the floor,
round the fractional part, and break the .5 tie toward the even integer. -/
def roundHalfEven (q : ℚ) : ℤ :=
  if q - ⌊q⌋ < 1 / 2 then ⌊q⌋
  else if 1 / 2 < q - ⌊q⌋ then ⌊q⌋ + 1
  else if ⌊q⌋ % 2 = 0 then ⌊q⌋ else ⌊q⌋ + 1

/-- The per-entry month count of ProfilerWorker._calculate_average_tenure:
(end.year - start.year) * 12 + (end.month - start.month), substituting the
current year/month when the end-date year is 0. -/
def employmentMonths (now : PyDate) (e : Employment) : Int :=
  let endY := if e.end_date.year = 0 then now.year else e.end_date.year
  let endM := if e.end_date.year = 0 then now.month else e.end_date.month
  (endY - e.start_date.year) * 12 + (endM - e.start_date.month)

/-- ProfilerWorker._calculate_average_tenure: 0.0 on an empty history, else
the loop accumulates each entry's months and the average is rounded to the
nearest whole month. -/
def calculate_average_tenure (now : PyDate) (hist : List Employment) : ℚ :=
  if hist = [] then 0
  else
    let total_months : Int :=
      hist.foldl (fun acc e => acc + employmentMonths now e) 0
    (roundHalfEven ((total_months : ℚ) / (hist.length : ℚ)) : ℚ)

/-- The per-entry years of ProfilerWorker._calculate_years_experience:
(end.year - start.year) + (end.month - start.month) / 12, with the same
present-day substitution. -/
def employmentYears (now : PyDate) (e : Employment) : ℚ :=
  let endY := if e.end_date.year = 0 then now.year else e.end_date.year
  let endM := if e.end_date.year = 0 then now.month else e.end_date.month
  ((endY - e.start_date.year : Int) : ℚ) +
    ((endM - e.start_date.month : Int) : ℚ) / 12

/-- ProfilerWorker._calculate_years_experience: sum the per-entry years and
round to the nearest 0.5 (round(total * 2) / 2). -/
def calculate_years_experience (now : PyDate) (hist : List Employment) : ℚ :=
  let total_years : ℚ := hist.foldl (fun acc e => acc + employmentYears now e) 0
  (roundHalfEven (total_years * 2) : ℚ) / 2

/-! ## Embedded-link recovery (workers/cv_processor.py lines 127-158) -/

/-- One PDF link annotation: the /URI target plus the optional /Contents
and /T entries the code consults for the hyperlinked text. -/
structure LinkAnnot where
  uri : String
  contents : Option String := none
  tEntry : Option String := none
deriving DecidableEq, Repr

/-- linked_text: "/Contents" if present, else "/T", else the empty string. -/
def linkedText (a : LinkAnnot) : String :=
  match a.contents with
  | some c => c
  | none =>
    match a.tEntry with
    | some t => t
    | none => ""

/-- Python str.lower(), character-wise (the file-extension check only
involves ASCII). -/
def pyLower (s : String) : String := String.mk (s.data.map Char.toLower)

/-- Python str.endswith, as a suffix test on the character sequence. -/
def pyEndsWith (s suf : String) : Bool := suf.data.isSuffixOf s.data

/-- Substring test, as Python `link in para`. -/
def substrB (need hay : String) : Bool :=
  hay.data.tails.any (fun t => need.data.isPrefixOf t)

/-- A single quote character, used in the synthetic link paragraph. -/
def sq : String := String.singleton (Char.ofNat 39)

/-- The synthetic paragraph appended for a link that no paragraph already
carries: with the hyperlinked text when it is truthy, else the bare URI. -/
def syntheticLinkParagraph (a : LinkAnnot) : String :=
  let t := linkedText a
  let u := a.uri
  if t ≠ "" then "\n[Found link: " ++ sq ++ t ++ sq ++ " -> " ++ u ++ "]"
  else "\n[Found link: " ++ u ++ "]"

/-- Process one link annotation against the (mutating) paragraph list: if
the URI is a substring of any current paragraph, leave the list unchanged,
else append the synthetic paragraph. -/
def appendLinkParagraph (paras : List String) (a : LinkAnnot) : List String :=
  if paras.any (fun p => substrB a.uri p) then paras
  else paras ++ [syntheticLinkParagraph a]

/-- The page-scan loop over all link annotations of the document. -/
def processLinks (paras : List String) (links : List LinkAnnot) :
    List String :=
  links.foldl appendLinkParagraph paras

/-! ## Rate limiter (services/llm/processor.py _wait_for_rate_limit,
services/vision/client.py _wait_for_vision_rate_limit)

Both clients keep a mutex-guarded last-call timestamp and a fixed minimum
interval.  `wait` is modelled as one mutex-serialized execution: `now` is
the time.time() read at entry, the sleep duration is computed exactly as in
the source, and `drift` (≥ 0 in the theorems) is the extra wall-clock time
elapsed between the end of the sleep and the closing time.time() read that
is stored as the new last-call timestamp. -/

structure RateLimiter where
  min_interval : ℚ
  last_call : ℚ
deriving DecidableEq, Repr

/-- The sleep performed by wait(): the remaining part of the interval when
called early, nothing otherwise. -/
def RateLimiter.sleepTime (L : RateLimiter) (now : ℚ) : ℚ :=
  if now - L.last_call < L.min_interval then
    L.min_interval - (now - L.last_call)
  else 0

/-- wait(): sleep, then record the new call time. -/
def RateLimiter.wait (L : RateLimiter) (now drift : ℚ) : RateLimiter × ℚ :=
  let d := L.sleepTime now
  ({ L with last_call := now + d + drift }, d)

/-- The two distinct limiter instances the claim compares: the text-LLM
client's and the vision client's, each with its own mutex and last-call
timestamp (LLMProcessor owns one, VisionAnalysisClient owns its own). -/
structure TwoLimiters where
  llm : RateLimiter
  vision : RateLimiter
deriving DecidableEq, Repr

/-- A wait() through the text-LLM client's limiter instance. -/
def TwoLimiters.waitLLM (s : TwoLimiters) (now drift : ℚ) :
    TwoLimiters × ℚ :=
  let (l, d) := s.llm.wait now drift
  ({ s with llm := l }, d)

/-- A wait() through the vision client's limiter instance. -/
def TwoLimiters.waitVision (s : TwoLimiters) (now drift : ℚ) :
    TwoLimiters × ℚ :=
  let (l, d) := s.vision.wait now drift
  ({ s with vision := l }, d)

/-- The CVLengthError message of cv_processor.py (f-string at lines 116-119). -/
def cvLengthMsg (n : Nat) : String :=
  let m := Configuration.CV_MAX_PAGES
  s!"The file has {n} pages, which is more than the maximum allowed ({m})"

/-- The JDLengthError message of jd_processor.py (f-string at lines 125-128). -/
def jdLengthMsg (n : Nat) : String :=
  let m := Configuration.JD_MAX_PAGES
  s!"The file has {n} pages, which is more than the maximum allowed ({m})"

/-- The CVFormatError / JDFormatError message for a non-PDF upload. -/
def unsupportedTypeMsg (fp : String) : String :=
  s!"Unsupported file type: {fp}"

/-- The RoleListingError message for a missing run record. -/
def jdNotFoundMsg (i : String) : String :=
  s!"Role profile run {i} not found"

/-! ## Résumé pipeline stage (workers/cv_processor.py _process_queue)

The external collaborators are supplied through `CVEnv`: the page count
that PdfReader reports, the paragraphs the extraction service returns, the
link annotations the scan finds, and the outcome of the (rate-limited,
batched) vision call — an LLMInferenceError message, a refusal (None), or
a CVDescription. -/

/-- One profiling queue item: (cv id, paragraphs, creativity assessment). -/
abbrev ProfItem := String × List String × Option CVDescription

structure CVEnv where
  page_count : Nat
  paragraphs : List String
  links : List LinkAnnot
  vision : Except String (Option CVDescription)
  now : Nat
deriving Repr

/-- The try-block body of one CV dequeue cycle.  The store is threaded so a
raised error keeps any earlier writes; the result is the hand-off tuple for
the profiler queue.  The write-back before the hand-off calls
update_cv_profile with keyword names cv_id / cv_profile / status — `cv_id`
is not a parameter name of the callee, so the call raises TypeError before
the manager body runs (the thunk passes the fields the duck-typed source
call site would: the fetched run's bundled profile and its own status). -/
def cvStageBody (cv_id file_path : String) (env : CVEnv) (s : CVStore) :
    CVStore × Except PyExc ProfItem :=
  if pyEndsWith (pyLower file_path) ".pdf" then
    if env.page_count > Configuration.CV_MAX_PAGES then
      (s, .error (.cvError ⟨.lengthError, cvLengthMsg env.page_count,
        cv_id⟩))
    else
      let paragraphs := processLinks env.paragraphs env.links
      match env.vision with
      | .error m => (s, .error (.llmInferenceError m))
      | .ok creativity_assessment =>
        match storeGetCV s cv_id with
        | none => (s, .error (.attributeError "NoneType run record"))
        | some cv_profile =>
          match pyKwCall updateCVProfileParams ["cv_id", "cv_profile", "status"]
              (fun _ => update_cv_profile s cv_id (some cv_profile.profile)
                none none none none cv_profile.status none none env.now) with
          | .error e => (s, .error e)
          | .ok s1 => (s1, .ok (cv_id, paragraphs, creativity_assessment))
  else
    (s, .error (.cvError ⟨.formatError, unsupportedTypeMsg file_path,
      cv_id⟩))

/-- One full CV dequeue cycle including the exception handlers: `except
CVError` re-fetches the run and attempts a FAILED write (again with the
`cv_id` keyword, so it raises TypeError, which the worker-loop catch logs);
the generic `except Exception` only logs.  Returns the store and the
optional hand-off to the profiler queue. -/
def cvProcessItem (cv_id file_path : String) (env : CVEnv) (s : CVStore) :
    CVStore × Option ProfItem :=
  match cvStageBody cv_id file_path env s with
  | (s1, .ok item) => (s1, some item)
  | (s1, .error (.cvError e)) =>
    match storeGetCV s1 e.cv_id with
    | none => (s1, none)
    | some p =>
      match pyKwCall updateCVProfileParams
          ["cv_id", "cv_profile", "status", "status_comment"]
          (fun _ => update_cv_profile s1 e.cv_id (some p.profile)
            none none none none CVProfileRunStatus.failed (some e.msg) none
            env.now) with
      | .ok s2 => (s2, none)
      | .error _ => (s1, none)
  | (s1, .error _) => (s1, none)

/-! ## Listing pipeline stage (workers/jd_processor.py _process_queue) -/

structure JDEnv where
  page_count : Nat
  paragraphs : List String
  llm : Except String (Option RoleProfile)
  newListingId : String
  embedResult : Option (List ℚ)
  now : Nat
deriving Repr

/-- The try-block body of one JD dequeue cycle: fetch the run (domain
not-found error if absent), touch it (updated_at, status preserved),
validate format and page count, run the LLM extraction, mark COMPLETED and
persist, promote to a RoleListing, and delete the transient run.  All
update_role_profile call sites here use keyword names that match the
callee's parameters, so the keyword binding succeeds. -/
def jdStageBody (jd_id file_path : String) (env : JDEnv)
    (s : JDStore) (L : ListingStore) :
    (JDStore × ListingStore) × Except PyExc Unit :=
  match storeGetJD s jd_id with
  | none =>
    ((s, L), .error (.jdError ⟨.listingError, jdNotFoundMsg jd_id, jd_id⟩))
  | some run =>
    match pyKwCall updateRoleProfileParams
        ["role_id", "role_profile", "creator_id", "status"]
        (fun _ => update_role_profile s jd_id (some run.asDomain)
          run.creator_id run.status none env.now) with
    | .error e => ((s, L), .error e)
    | .ok (s1, run1) =>
      if pyEndsWith (pyLower file_path) ".pdf" then
        if env.page_count > Configuration.JD_MAX_PAGES then
          ((s1, L), .error (.jdError ⟨.lengthError,
            jdLengthMsg env.page_count, jd_id⟩))
        else
          match env.llm with
          | .error m => ((s1, L), .error (.llmInferenceError m))
          | .ok jd_analysis =>
            match pyKwCall updateRoleProfileParams
                ["role_id", "role_profile", "creator_id", "status"]
                (fun _ => update_role_profile s1 jd_id
                  (jd_analysis.map RoleProfile.domain) run1.creator_id
                  RoleListingRunStatus.completed none env.now) with
            | .error e => ((s1, L), .error e)
            | .ok (s2, run2) =>
              match add_role_from_profile L run2 env.newListingId
                  env.embedResult env.now with
              | .error e => ((s2, L), .error e)
              | .ok (L2, _) => ((storeDeleteJD s2 run2.id, L2), .ok ())
      else
        ((s1, L), .error (.jdError ⟨.formatError,
          unsupportedTypeMsg file_path, jd_id⟩))

/-- One full JD dequeue cycle including the handlers: `except
RoleListingError` re-fetches the run and, only if it is still present,
writes status FAILED with the error message as status comment; the generic
`except Exception` only logs. -/
def jdProcessItem (jd_id file_path : String) (env : JDEnv)
    (s : JDStore) (L : ListingStore) : JDStore × ListingStore :=
  match jdStageBody jd_id file_path env s L with
  | ((s1, L1), .ok _) => (s1, L1)
  | ((s1, L1), .error (.jdError e)) =>
    match storeGetJD s1 e.jd_id with
    | none => (s1, L1)
    | some p =>
      match pyKwCall updateRoleProfileParams
          ["role_id", "role_profile", "creator_id", "status", "status_comment"]
          (fun _ => update_role_profile s1 e.jd_id (some p.asDomain)
            p.creator_id RoleListingRunStatus.failed (some e.msg) env.now) with
      | .ok (s2, _) => (s2, L1)
      | .error _ => (s1, L1)
  | ((s1, L1), .error _) => (s1, L1)

/-! ## Profiler stage (workers/profiler.py _process_queue) -/

structure ProfEnv where
  llm : Except String (Option CVProfile)
  nowDate : PyDate
  now : Nat
deriving Repr

/-- One profiler dequeue cycle on a hand-off tuple.  The LLM call may raise
(generic catch, no write) or return None; the aggregates are computed only
for a non-empty employment history; evaluating the call arguments reads the
three sub-scores of the creativity assessment, so a None assessment raises
AttributeError before the completion write (generic catch, no write); the
completion write itself passes user id and profile positionally and the
remaining arguments by matching keywords, status defaulting to COMPLETED.
The subsequent user merge touches only the permanent User entity, not the
run record, and is outside this model. -/
def profilerProcessItem (cv_id : String) (_paragraphs : List String)
    (creativity_assessment : Option CVDescription) (env : ProfEnv)
    (s : CVStore) : CVStore :=
  match env.llm with
  | .error _ => s
  | .ok profile =>
    let years_experience : Option ℚ :=
      match profile with
      | some p =>
        if p.employment_history ≠ [] then
          some (calculate_years_experience env.nowDate p.employment_history)
        else none
      | none => none
    let average_tenure : Option ℚ :=
      match profile with
      | some p =>
        if p.employment_history ≠ [] then
          some (calculate_average_tenure env.nowDate p.employment_history)
        else none
      | none => none
    match creativity_assessment with
    | none => s
    | some a =>
      match pyKwCall updateCVProfileParams
          ["average_tenure", "creativity_score", "formatting_score",
           "grammar_score", "years_experience"]
          (fun _ => update_cv_profile s cv_id profile average_tenure
            (some a.creativity_score) (some a.formatting_score)
            (some a.grammar_score) CVProfileRunStatus.completed none
            years_experience env.now) with
      | .ok s1 => s1
      | .error _ => s

/-! ## Pool construction recovery scans -/

/-- CVProcessorWorker.__init__ (lines 62-72): load every run the pending
query returns into the queue, in order, via add_cv_to_queue. -/
def cvPoolInitQueue (s : CVStore) : List (String × String) :=
  (get_pending_cv_profiles s).map (fun r => (r.id, r.file_path))

/-- JDProcessorWorker.__init__ (lines 58-68): same recovery scan for
pending role profile runs. -/
def jdPoolInitQueue (s : JDStore) : List (String × String) :=
  (get_pending_role_profiles s).map (fun r => (r.id, r.file_path))

/-- ProfilerWorker.__init__ (lines 31-52): the queue and worker threads are
created but no recovery scan of the persistent store is performed — nothing
is enqueued at construction, whatever the store holds. -/
def profilerPoolInitQueue (_ : CVStore) : List ProfItem := []

/-! ## One-step system semantics

A producer event writes the PENDING run and enqueues (upload routers /
explicit resubmission); a worker event is one dequeue-process cycle of the
corresponding pool (a no-op when its queue is empty, which models the
dequeue timeout). -/

structure SysState where
  cvStore : CVStore
  jdStore : JDStore
  listings : ListingStore
  cvQueue : List (String × String)
  jdQueue : List (String × String)
  profQueue : List ProfItem
deriving DecidableEq, Repr

inductive Event
  | submitCV (user_id file_path : String) (now : Nat)
  | submitJD (role_id file_path creator_id : String) (now : Nat)
  | cvWork (env : CVEnv)
  | jdWork (env : JDEnv)
  | profWork (env : ProfEnv)
deriving Repr

def applyEvent : Event → SysState → SysState
  | .submitCV uid fp now, s =>
    { s with
      cvStore := add_cv_profile s.cvStore uid fp now
      cvQueue := s.cvQueue ++ [(uid, fp)] }
  | .submitJD rid fp cid now, s =>
    { s with
      jdStore := add_role_profile s.jdStore rid fp cid now
      jdQueue := s.jdQueue ++ [(rid, fp)] }
  | .cvWork env, s =>
    match s.cvQueue with
    | [] => s
    | (id, fp) :: rest =>
      let r := cvProcessItem id fp env s.cvStore
      { s with
        cvStore := r.1
        cvQueue := rest
        profQueue := s.profQueue ++ r.2.toList }
  | .jdWork env, s =>
    match s.jdQueue with
    | [] => s
    | (id, fp) :: rest =>
      let r := jdProcessItem id fp env s.jdStore s.listings
      { s with jdStore := r.1, listings := r.2, jdQueue := rest }
  | .profWork env, s =>
    match s.profQueue with
    | [] => s
    | (id, paras, assess) :: rest =>
      { s with
        cvStore := profilerProcessItem id paras assess env s.cvStore
        profQueue := rest }

/-! ## Concrete fixtures used by witnesses and counterexamples -/

/-- Fixture: a freshly submitted (PENDING) résumé run. -/
def pendingCVRun : CVProfileRun :=
  { id := "u1", created_at := 0, updated_at := 0, file_path := "cv.pdf",
    status := CVProfileRunStatus.pending }

/-- Fixture: a FAILED résumé run, as left by a failed earlier submission. -/
def failedCVRun : CVProfileRun :=
  { id := "u1", created_at := 0, updated_at := 0, file_path := "cv.pdf",
    status := CVProfileRunStatus.failed }

/-- Fixture: a system state whose CV store holds one FAILED run. -/
def sysWithFailedCV : SysState :=
  { cvStore := [failedCVRun], jdStore := [], listings := [],
    cvQueue := [], jdQueue := [], profQueue := [] }

/-- Fixture: a PENDING listing run. -/
def pendingJDRun : RoleProfileRun :=
  { id := "r1", created_at := 0, updated_at := 0, creator_id := "c9",
    file_path := "jd.pdf", status := RoleListingRunStatus.pending }

/-- Fixture: an extraction/vision environment for a well-formed one-page CV. -/
def okCVEnv : CVEnv :=
  { page_count := 1, paragraphs := ["p"], links := [],
    vision := Except.ok (some ⟨5, 6, 7⟩), now := 5 }

/-- Fixture: the same environment but for a three-page CV (over the
two-page maximum). -/
def threePageCVEnv : CVEnv :=
  { page_count := 3, paragraphs := ["p"], links := [],
    vision := Except.ok (some ⟨5, 6, 7⟩), now := 5 }

/-- Fixture: the vision model refuses, describe_doc_pages returns None. -/
def refusalCVEnv : CVEnv :=
  { page_count := 1, paragraphs := ["p"], links := [],
    vision := Except.ok none, now := 5 }

/-- Fixture: a profiler environment whose LLM call raises. -/
def failingProfEnv : ProfEnv :=
  { llm := Except.error "boom", nowDate := ⟨7, 2024⟩, now := 9 }

/-- Fixture: a system state with one pending CV run and one queued
profiling hand-off. -/
def sysWithProfItem : SysState :=
  { cvStore := [pendingCVRun], jdStore := [], listings := [],
    cvQueue := [], jdQueue := [], profQueue := [("u1", ["p"], none)] }

/-- Fixture: a system state with one pending CV run and its queue item. -/
def sysWithCVItem : SysState :=
  { cvStore := [pendingCVRun], jdStore := [], listings := [],
    cvQueue := [("u1", "cv.pdf")], jdQueue := [], profQueue := [] }

/-- Fixture: a structured listing profile as returned by the LLM. -/
def rpFixture : RoleProfile :=
  { description := "great job", title := "Dev", requirements := ["x"] }

/-- Fixture: a JD environment for a successful one-page listing run. -/
def okJDEnv : JDEnv :=
  { page_count := 1, paragraphs := ["p"], llm := Except.ok (some rpFixture),
    newListingId := "L1", embedResult := some [1, 2], now := 7 }

/-- Fixture: one employment entry from 2020-01 to 2022-01. -/
def tenureEntry : Employment :=
  { start_date := ⟨1, 2020⟩, end_date := ⟨1, 2022⟩ }

/-- Fixture: one employment entry from 2020-01 to the present day
(end-date year 0). -/
def presentEntry : Employment :=
  { start_date := ⟨1, 2020⟩, end_date := ⟨1, 0⟩ }

/-- Fixture: a second persisted PENDING résumé run. -/
def pendingCVRunB : CVProfileRun :=
  { id := "u2", created_at := 0, updated_at := 0, file_path := "cv2.pdf",
    status := CVProfileRunStatus.pending }

/-- Fixture: a third persisted PENDING résumé run. -/
def pendingCVRunC : CVProfileRun :=
  { id := "u3", created_at := 0, updated_at := 0, file_path := "cv3.pdf",
    status := CVProfileRunStatus.pending }

/-- Fixture: one employment entry from 2020-01 to 2024-04 (4.25 years, a
nearest-0.5 tie boundary). -/
def quarterEntry : Employment :=
  { start_date := ⟨1, 2020⟩, end_date := ⟨4, 2024⟩ }

/-! ## Store lemmas -/

lemma storeGetCV_id {s : CVStore} {i : String} {r : CVProfileRun}
    (h : storeGetCV s i = some r) : r.id = i := by
  induction s with
  | nil => simp [storeGetCV] at h
  | cons x s ih =>
    by_cases hx : x.id = i
    · simp [storeGetCV, hx] at h
      rw [← h, hx]
    · simp [storeGetCV, hx] at h
      exact ih h

lemma storeGetJD_id {s : JDStore} {i : String} {r : RoleProfileRun}
    (h : storeGetJD s i = some r) : r.id = i := by
  induction s with
  | nil => simp [storeGetJD] at h
  | cons x s ih =>
    by_cases hx : x.id = i
    · simp [storeGetJD, hx] at h
      rw [← h, hx]
    · simp [storeGetJD, hx] at h
      exact ih h

lemma storeGetCV_upsert (s : CVStore) (r : CVProfileRun) (i : String) :
    storeGetCV (upsertCV s r) i =
      if r.id = i then some r else storeGetCV s i := by
  induction s with
  | nil => simp [upsertCV, storeGetCV]
  | cons x s ih =>
    simp only [upsertCV]
    by_cases hx : x.id = r.id
    · rw [if_pos hx]
      simp only [storeGetCV]
      split_ifs with h1 h2
      · rfl
      · exact absurd (hx.symm.trans h2) h1
      · rfl
    · rw [if_neg hx]
      simp only [storeGetCV]
      rw [ih]
      split_ifs with h1 h2
      · exact absurd (h1.trans h2.symm) hx
      · rfl
      · rfl
      · rfl

lemma storeGetJD_upsert (s : JDStore) (r : RoleProfileRun) (i : String) :
    storeGetJD (upsertJD s r) i =
      if r.id = i then some r else storeGetJD s i := by
  induction s with
  | nil => simp [upsertJD, storeGetJD]
  | cons x s ih =>
    simp only [upsertJD]
    by_cases hx : x.id = r.id
    · rw [if_pos hx]
      simp only [storeGetJD]
      split_ifs with h1 h2
      · rfl
      · exact absurd (hx.symm.trans h2) h1
      · rfl
    · rw [if_neg hx]
      simp only [storeGetJD]
      rw [ih]
      split_ifs with h1 h2
      · exact absurd (h1.trans h2.symm) hx
      · rfl
      · rfl
      · rfl

lemma storeGetJD_none_of_not_mem {s : JDStore} {i : String}
    (h : i ∉ s.map RoleProfileRun.id) : storeGetJD s i = none := by
  induction s with
  | nil => simp [storeGetJD]
  | cons x s ih =>
    simp only [List.map_cons, List.mem_cons] at h
    push_neg at h
    have hx : ¬ x.id = i := fun hh => h.1 hh.symm
    simp only [storeGetJD, if_neg hx]
    exact ih h.2

lemma mem_map_id_upsertJD {s : JDStore} {r : RoleProfileRun} {i : String}
    (h : i ∈ (upsertJD s r).map RoleProfileRun.id) :
    i ∈ s.map RoleProfileRun.id ∨ i = r.id := by
  induction s with
  | nil =>
    simp only [upsertJD, List.map_cons, List.map_nil,
      List.mem_singleton] at h
    right; exact h
  | cons x s ih =>
    simp only [upsertJD] at h
    by_cases hx : x.id = r.id
    · rw [if_pos hx] at h
      simp only [List.map_cons, List.mem_cons] at h ⊢
      rcases h with h1 | h1
      · right; exact h1
      · left; right; exact h1
    · rw [if_neg hx] at h
      simp only [List.map_cons, List.mem_cons] at h ⊢
      rcases h with h1 | h1
      · left; left; exact h1
      · rcases ih h1 with h2 | h2
        · left; right; exact h2
        · right; exact h2

lemma nodup_map_id_upsertJD {s : JDStore} {r : RoleProfileRun}
    (h : (s.map RoleProfileRun.id).Nodup) :
    ((upsertJD s r).map RoleProfileRun.id).Nodup := by
  induction s with
  | nil =>
    simp only [upsertJD, List.map_cons, List.map_nil]
    exact List.nodup_singleton _
  | cons x s ih =>
    simp only [List.map_cons, List.nodup_cons] at h
    simp only [upsertJD]
    by_cases hx : x.id = r.id
    · rw [if_pos hx]
      simp only [List.map_cons, List.nodup_cons]
      exact ⟨by rw [← hx]; exact h.1, h.2⟩
    · rw [if_neg hx]
      simp only [List.map_cons, List.nodup_cons]
      refine ⟨fun hm => ?_, ih h.2⟩
      rcases mem_map_id_upsertJD hm with hm1 | hm1
      · exact h.1 hm1
      · exact hx hm1

lemma storeDeleteJD_sublist (s : JDStore) (i : String) :
    List.Sublist (storeDeleteJD s i) s := by
  induction s with
  | nil => simp [storeDeleteJD]
  | cons x s ih =>
    by_cases hx : x.id = i
    · simp only [storeDeleteJD, if_pos hx]
      exact List.sublist_cons_self x s
    · simp only [storeDeleteJD, if_neg hx]
      exact List.Sublist.cons₂ x ih

lemma storeGetJD_delete_self {s : JDStore} {i : String}
    (h : (s.map RoleProfileRun.id).Nodup) :
    storeGetJD (storeDeleteJD s i) i = none := by
  induction s with
  | nil => simp [storeDeleteJD, storeGetJD]
  | cons x s ih =>
    simp only [List.map_cons, List.nodup_cons] at h
    by_cases hx : x.id = i
    · simp only [storeDeleteJD, if_pos hx]
      exact storeGetJD_none_of_not_mem (by rw [← hx]; exact h.1)
    · simp [storeDeleteJD, if_neg hx, storeGetJD, hx, ih h.2]

lemma storeGetJD_delete_ne (s : JDStore) {i j : String} (hij : j ≠ i) :
    storeGetJD (storeDeleteJD s i) j = storeGetJD s j := by
  induction s with
  | nil => simp [storeDeleteJD]
  | cons x s ih =>
    simp only [storeDeleteJD]
    by_cases hx : x.id = i
    · rw [if_pos hx]
      have hxj : ¬ x.id = j := fun hh => hij (hh.symm.trans hx)
      conv_rhs => rw [show storeGetJD (x :: s) j =
        if x.id = j then some x else storeGetJD s j from rfl]
      rw [if_neg hxj]
    · rw [if_neg hx]
      simp only [storeGetJD]
      rw [ih]

lemma nodup_map_id_deleteJD {s : JDStore} {i : String}
    (h : (s.map RoleProfileRun.id).Nodup) :
    ((storeDeleteJD s i).map RoleProfileRun.id).Nodup :=
  h.sublist (List.Sublist.map _ (storeDeleteJD_sublist s i))

/-! ## Arithmetic and substring lemmas -/

lemma abs_roundHalfEven_sub_le (q : ℚ) :
    |(roundHalfEven q : ℚ) - q| ≤ 1 / 2 := by
  have h0 : (0 : ℚ) ≤ q - ⌊q⌋ := by
    have := Int.floor_le q; linarith
  have h1 : q - ⌊q⌋ < 1 := by
    have := Int.lt_floor_add_one q; linarith
  unfold roundHalfEven
  split_ifs with ha hb hc
  · rw [abs_sub_comm, abs_of_nonneg h0]; linarith
  · push_cast
    rw [abs_of_nonneg (by linarith)]
    linarith
  · rw [abs_sub_comm, abs_of_nonneg h0]; linarith
  · push_cast
    rw [abs_of_nonneg (by linarith)]
    linarith

lemma roundHalfEven_int_add_half (k : ℤ) :
    roundHalfEven ((k : ℚ) + 1 / 2) = if k % 2 = 0 then k else k + 1 := by
  have hf : ⌊(k : ℚ) + 1 / 2⌋ = k := by
    rw [Int.floor_eq_iff]
    constructor
    · linarith
    · linarith
  unfold roundHalfEven
  rw [hf]
  have hr : (k : ℚ) + 1 / 2 - k = 1 / 2 := by ring
  rw [hr]
  norm_num

lemma foldl_add_eq_sum {α β : Type*} [AddCommMonoid β] (f : α → β) :
    ∀ (l : List α) (a : β),
      l.foldl (fun acc e => acc + f e) a = a + (l.map f).sum
  | [], a => by simp
  | x :: l, a => by
    simp only [List.foldl_cons, List.map_cons, List.sum_cons]
    rw [foldl_add_eq_sum f l (a + f x), add_assoc]

lemma isPrefixOf_append_self : ∀ (s t : List Char),
    s.isPrefixOf (s ++ t) = true
  | [], _ => by simp [List.isPrefixOf]
  | c :: s, t => by
    simp only [List.cons_append, List.isPrefixOf_cons₂_self]
    exact isPrefixOf_append_self s t

lemma tails_any_self {p : List Char → Bool} (w : List Char)
    (h : p w = true) : w.tails.any p = true := by
  cases w with
  | nil => simpa [List.tails] using h
  | cons a as => simp [List.tails_cons, List.any_cons, h]

lemma tails_any_append_left {p : List Char → Bool} :
    ∀ (l v : List Char), v.tails.any p = true → (l ++ v).tails.any p = true
  | [], _, h => by simpa using h
  | a :: l, v, h => by
    simp only [List.cons_append, List.tails_cons, List.any_cons]
    rw [tails_any_append_left l v h]
    simp

lemma substrB_of_split (mid hay : String) (l r : List Char)
    (h : hay.data = l ++ (mid.data ++ r)) : substrB mid hay = true := by
  unfold substrB
  rw [h]
  exact tails_any_append_left l _
    (tails_any_self _ (isPrefixOf_append_self _ _))

lemma roundHalfEven_intCast (n : ℤ) : roundHalfEven ((n : ℚ)) = n := by
  unfold roundHalfEven
  rw [Int.floor_intCast]
  norm_num

lemma str_data_append (x y : String) : (x ++ y).data = x.data ++ y.data := by
  cases x; cases y; rfl

lemma mem_map_id_upsertCV {s : CVStore} {r : CVProfileRun} {i : String}
    (h : i ∈ (upsertCV s r).map CVProfileRun.id) :
    i ∈ s.map CVProfileRun.id ∨ i = r.id := by
  induction s with
  | nil =>
    simp only [upsertCV, List.map_cons, List.map_nil,
      List.mem_singleton] at h
    right; exact h
  | cons x s ih =>
    simp only [upsertCV] at h
    by_cases hx : x.id = r.id
    · rw [if_pos hx] at h
      simp only [List.map_cons, List.mem_cons] at h ⊢
      rcases h with h1 | h1
      · right; exact h1
      · left; right; exact h1
    · rw [if_neg hx] at h
      simp only [List.map_cons, List.mem_cons] at h ⊢
      rcases h with h1 | h1
      · left; left; exact h1
      · rcases ih h1 with h2 | h2
        · left; right; exact h2
        · right; exact h2

lemma nodup_map_id_upsertCV {s : CVStore} {r : CVProfileRun}
    (h : (s.map CVProfileRun.id).Nodup) :
    ((upsertCV s r).map CVProfileRun.id).Nodup := by
  induction s with
  | nil =>
    simp only [upsertCV, List.map_cons, List.map_nil]
    exact List.nodup_singleton _
  | cons x s ih =>
    simp only [List.map_cons, List.nodup_cons] at h
    simp only [upsertCV]
    by_cases hx : x.id = r.id
    · rw [if_pos hx]
      simp only [List.map_cons, List.nodup_cons]
      exact ⟨by rw [← hx]; exact h.1, h.2⟩
    · rw [if_neg hx]
      simp only [List.map_cons, List.nodup_cons]
      refine ⟨fun hm => ?_, ih h.2⟩
      rcases mem_map_id_upsertCV hm with hm1 | hm1
      · exact h.1 hm1
      · exact hx hm1

/-! ## Worker stage behaviour lemmas -/

lemma acceptsKwargs_cv_writeback : acceptsKwargs updateCVProfileParams
    ["cv_id", "cv_profile", "status"] = false := by decide

lemma acceptsKwargs_cv_failwrite : acceptsKwargs updateCVProfileParams
    ["cv_id", "cv_profile", "status", "status_comment"] = false := by decide

lemma acceptsKwargs_prof_write : acceptsKwargs updateCVProfileParams
    ["average_tenure", "creativity_score", "formatting_score",
     "grammar_score", "years_experience"] = true := by decide

lemma acceptsKwargs_jd_touch : acceptsKwargs updateRoleProfileParams
    ["role_id", "role_profile", "creator_id", "status"] = true := by decide

lemma acceptsKwargs_jd_fail : acceptsKwargs updateRoleProfileParams
    ["role_id", "role_profile", "creator_id", "status", "status_comment"] =
      true := by decide

lemma cvStageBody_store (i f : String) (e : CVEnv) (st : CVStore) :
    (cvStageBody i f e st).1 = st := by
  unfold cvStageBody
  simp only [pyKwCall, acceptsKwargs_cv_writeback, Bool.false_eq_true,
    if_false]
  split
  · split
    · rfl
    · split
      · rfl
      · split
        · rfl
        · rfl
  · rfl

lemma cvProcessItem_store (i f : String) (e : CVEnv) (st : CVStore) :
    (cvProcessItem i f e st).1 = st := by
  have hb := cvStageBody_store i f e st
  unfold cvProcessItem
  rcases hcv : cvStageBody i f e st with ⟨s1, r⟩
  rw [hcv] at hb
  simp only at hb
  subst hb
  cases r with
  | ok item => rfl
  | error exc =>
    cases exc with
    | cvError ee =>
      simp only [pyKwCall, acceptsKwargs_cv_failwrite, Bool.false_eq_true,
        if_false]
      split <;> rfl
    | jdError ee => rfl
    | llmInferenceError m => rfl
    | typeError m => rfl
    | attributeError m => rfl
    | valueError m => rfl



lemma jdProcessItem_nodup (i f : String) (e : JDEnv) (st : JDStore)
    (L : ListingStore) (hnd : (st.map RoleProfileRun.id).Nodup) :
    (((jdProcessItem i f e st L).1).map RoleProfileRun.id).Nodup := by
  unfold jdProcessItem jdStageBody
  cases hg : storeGetJD st i with
  | none =>
    simp only [pyKwCall, acceptsKwargs_jd_touch, if_true, hg]
    exact hnd
  | some run =>
    have hid : run.id = i := storeGetJD_id hg
    simp only [pyKwCall, acceptsKwargs_jd_touch, acceptsKwargs_jd_fail,
      if_true]
    unfold update_role_profile
    simp only [hg]
    by_cases hpdf : pyEndsWith (pyLower f) ".pdf" = true
    · rw [if_pos hpdf]
      by_cases hpc : e.page_count > Configuration.JD_MAX_PAGES
      · rw [if_pos hpc]
        simp only [storeGetJD_upsert, hid, eq_self_iff_true, if_true]
        exact nodup_map_id_upsertJD (nodup_map_id_upsertJD hnd)
      · rw [if_neg hpc]
        cases hllm : e.llm with
        | error m =>
          simp only
          exact nodup_map_id_upsertJD hnd
        | ok jd_analysis =>
          cases jd_analysis with
          | none =>
            simp only [storeGetJD_upsert, hid, eq_self_iff_true, if_true,
              Option.map_none']
            exact nodup_map_id_upsertJD hnd
          | some rp =>
            simp only [storeGetJD_upsert, hid, eq_self_iff_true, if_true,
              Option.map_some']
            unfold add_role_from_profile
            simp only [ne_eq, eq_self_iff_true, not_true, if_false,
              ite_false]
            exact nodup_map_id_deleteJD
              (nodup_map_id_upsertJD (nodup_map_id_upsertJD hnd))
    · rw [if_neg hpdf]
      simp only [storeGetJD_upsert, hid, eq_self_iff_true, if_true]
      exact nodup_map_id_upsertJD (nodup_map_id_upsertJD hnd)



lemma jdProcessItem_no_regress (i f : String) (e : JDEnv) (st : JDStore)
    (L : ListingStore) (hnd : (st.map RoleProfileRun.id).Nodup)
    (j : String) (r r' : RoleProfileRun)
    (hbefore : storeGetJD st j = some r)
    (hnp : r.status ≠ RoleListingRunStatus.pending)
    (hafter : storeGetJD (jdProcessItem i f e st L).1 j = some r') :
    r'.status ≠ RoleListingRunStatus.pending := by
  unfold jdProcessItem jdStageBody at hafter
  cases hg : storeGetJD st i with
  | none =>
    rw [hg] at hafter
    simp only [pyKwCall, acceptsKwargs_jd_touch, if_true, hg] at hafter
    rw [hbefore] at hafter
    cases hafter
    exact hnp
  | some run =>
    have hid : run.id = i := storeGetJD_id hg
    rw [hg] at hafter
    simp only [pyKwCall, acceptsKwargs_jd_touch, acceptsKwargs_jd_fail,
      if_true] at hafter
    unfold update_role_profile at hafter
    simp only [hg] at hafter
    by_cases hpdf : pyEndsWith (pyLower f) ".pdf" = true
    · rw [if_pos hpdf] at hafter
      by_cases hpc : e.page_count > Configuration.JD_MAX_PAGES
      · rw [if_pos hpc] at hafter
        simp only [storeGetJD_upsert, hid, eq_self_iff_true, if_true]
          at hafter
        by_cases hij : i = j
        · rw [if_pos hij] at hafter
          cases hafter
          simp
        · rw [if_neg hij, if_neg hij, hbefore] at hafter
          cases hafter
          exact hnp
      · rw [if_neg hpc] at hafter
        cases hllm : e.llm with
        | error m =>
          rw [hllm] at hafter
          simp only [storeGetJD_upsert, hid] at hafter
          by_cases hij : i = j
          · rw [if_pos hij] at hafter
            cases hafter
            have : run = r := by
              rw [hij] at hg
              rw [hg] at hbefore
              exact Option.some_inj.mp hbefore
            simp only [← this] at hnp
            simpa using hnp
          · rw [if_neg hij, hbefore] at hafter
            cases hafter
            exact hnp
        | ok jd_analysis =>
          rw [hllm] at hafter
          cases jd_analysis with
          | none =>
            simp only [storeGetJD_upsert, hid, eq_self_iff_true, if_true,
              Option.map_none'] at hafter
            by_cases hij : i = j
            · rw [if_pos hij] at hafter
              cases hafter
              have : run = r := by
                rw [hij] at hg
                rw [hg] at hbefore
                exact Option.some_inj.mp hbefore
              simp only [← this] at hnp
              simpa using hnp
            · rw [if_neg hij, hbefore] at hafter
              cases hafter
              exact hnp
          | some rp =>
            simp only [storeGetJD_upsert, hid, eq_self_iff_true, if_true,
              Option.map_some'] at hafter
            unfold add_role_from_profile at hafter
            simp only [ne_eq, eq_self_iff_true, not_true, if_false,
              ite_false] at hafter
            by_cases hij : i = j
            · rw [← hij] at hafter
              rw [storeGetJD_delete_self] at hafter
              · cases hafter
              · exact nodup_map_id_upsertJD (nodup_map_id_upsertJD hnd)
            · rw [storeGetJD_delete_ne _ (fun hh => hij hh.symm)] at hafter
              simp only [storeGetJD_upsert, hid] at hafter
              rw [if_neg hij, if_neg hij, hbefore] at hafter
              cases hafter
              exact hnp
    · rw [if_neg hpdf] at hafter
      simp only [storeGetJD_upsert, hid, eq_self_iff_true, if_true]
        at hafter
      by_cases hij : i = j
      · rw [if_pos hij] at hafter
        cases hafter
        simp
      · rw [if_neg hij, if_neg hij, hbefore] at hafter
        cases hafter
        exact hnp



lemma profilerProcessItem_pending (i : String) (pr : List String)
    (as : Option CVDescription) (e : ProfEnv) (st : CVStore) (j : String)
    (r' : CVProfileRun)
    (hafter : storeGetCV (profilerProcessItem i pr as e st) j = some r')
    (hp : r'.status = CVProfileRunStatus.pending) :
    storeGetCV st j = some r' := by
  unfold profilerProcessItem at hafter
  cases hllm : e.llm with
  | error m =>
    rw [hllm] at hafter
    exact hafter
  | ok profile =>
    rw [hllm] at hafter
    cases as with
    | none => exact hafter
    | some a =>
      simp only [pyKwCall, acceptsKwargs_prof_write, if_true] at hafter
      unfold update_cv_profile at hafter
      cases hg : storeGetCV st i with
      | none =>
        rw [hg] at hafter
        exact hafter
      | some p =>
        rw [hg] at hafter
        cases profile with
        | none => exact hafter
        | some pp =>
          simp only [storeGetCV_upsert] at hafter
          by_cases hij : i = j
          · rw [if_pos hij] at hafter
            cases hafter
            simp at hp
          · rw [if_neg hij] at hafter
            exact hafter

lemma profilerProcessItem_nodup (i : String) (pr : List String)
    (as : Option CVDescription) (e : ProfEnv) (st : CVStore)
    (hnd : (st.map CVProfileRun.id).Nodup) :
    ((profilerProcessItem i pr as e st).map CVProfileRun.id).Nodup := by
  unfold profilerProcessItem
  cases hllm : e.llm with
  | error m => exact hnd
  | ok profile =>
    cases as with
    | none => exact hnd
    | some a =>
      simp only [pyKwCall, acceptsKwargs_prof_write, if_true]
      unfold update_cv_profile
      cases hg : storeGetCV st i with
      | none => exact hnd
      | some p =>
        cases profile with
        | none => exact hnd
        | some pp => exact nodup_map_id_upsertCV hnd

/-! ## Claim theorems -/

lemma cvStatus_closed (st : CVProfileRunStatus) :
    st = CVProfileRunStatus.pending ∨ st = CVProfileRunStatus.completed ∨
      st = CVProfileRunStatus.failed := by
  cases st <;> simp

lemma jdStatus_closed (st : RoleListingRunStatus) :
    st = RoleListingRunStatus.pending ∨ st = RoleListingRunStatus.completed ∨
      st = RoleListingRunStatus.failed := by
  cases st <;> simp

/-- C1: after any single producer or worker event, every run record in
either store has status in {PENDING, COMPLETED, FAILED}; and assuming the
store invariant (at most one record per id, which every event preserves,
first conjunct), no pipeline operation — CV stage write-back, CV/JD
failure write, profiler completion write, JD completion write — ever
changes a run from a terminal status (COMPLETED or FAILED) back to
PENDING: a run that reads PENDING after the event while it was terminal
before can only be explained by an explicit resubmission event
(submitCV / submitJD, i.e. add_cv_profile / add_role_profile writing a
fresh PENDING run) for that very id. -/
theorem C1_status_invariant (s : SysState) (ev : Event) (id : String)
    (hcv : (s.cvStore.map CVProfileRun.id).Nodup)
    (hjd : (s.jdStore.map RoleProfileRun.id).Nodup) :
    (((applyEvent ev s).cvStore.map CVProfileRun.id).Nodup ∧
      ((applyEvent ev s).jdStore.map RoleProfileRun.id).Nodup)
    ∧ (∀ r ∈ (applyEvent ev s).cvStore,
        r.status = CVProfileRunStatus.pending ∨
        r.status = CVProfileRunStatus.completed ∨
        r.status = CVProfileRunStatus.failed)
    ∧ (∀ r ∈ (applyEvent ev s).jdStore,
        r.status = RoleListingRunStatus.pending ∨
        r.status = RoleListingRunStatus.completed ∨
        r.status = RoleListingRunStatus.failed)
    ∧ (∀ r, storeGetCV s.cvStore id = some r →
        r.status ≠ CVProfileRunStatus.pending →
        ∀ r', storeGetCV (applyEvent ev s).cvStore id = some r' →
        r'.status = CVProfileRunStatus.pending →
        ∃ fp now, ev = Event.submitCV id fp now)
    ∧ (∀ r, storeGetJD s.jdStore id = some r →
        r.status ≠ RoleListingRunStatus.pending →
        ∀ r', storeGetJD (applyEvent ev s).jdStore id = some r' →
        r'.status = RoleListingRunStatus.pending →
        ∃ fp cid now, ev = Event.submitJD id fp cid now) := by
  refine ⟨?_, fun r _ => cvStatus_closed r.status,
    fun r _ => jdStatus_closed r.status, ?_, ?_⟩
  · cases ev with
    | submitCV uid fp now => exact ⟨nodup_map_id_upsertCV hcv, hjd⟩
    | submitJD rid fp cid now => exact ⟨hcv, nodup_map_id_upsertJD hjd⟩
    | cvWork env =>
      rcases hq : s.cvQueue with _ | ⟨⟨a, b⟩, rest⟩
      · simp only [applyEvent, hq]
        exact ⟨hcv, hjd⟩
      · simp only [applyEvent, hq]
        rw [cvProcessItem_store]
        exact ⟨hcv, hjd⟩
    | jdWork env =>
      rcases hq : s.jdQueue with _ | ⟨⟨a, b⟩, rest⟩
      · simp only [applyEvent, hq]
        exact ⟨hcv, hjd⟩
      · simp only [applyEvent, hq]
        exact ⟨hcv, jdProcessItem_nodup a b env s.jdStore s.listings hjd⟩
    | profWork env =>
      rcases hq : s.profQueue with _ | ⟨⟨a, b, c⟩, rest⟩
      · simp only [applyEvent, hq]
        exact ⟨hcv, hjd⟩
      · simp only [applyEvent, hq]
        exact ⟨profilerProcessItem_nodup a b c env s.cvStore hcv, hjd⟩
  · intro r hr hrnp r' hr' hr'p
    cases ev with
    | submitCV uid fp now =>
      by_cases hu : uid = id
      · exact ⟨fp, now, by rw [hu]⟩
      · exfalso
        simp only [applyEvent] at hr'
        unfold add_cv_profile at hr'
        rw [storeGetCV_upsert] at hr'
        rw [if_neg hu] at hr'
        rw [hr] at hr'
        cases hr'
        exact hrnp hr'p
    | submitJD rid fp cid now =>
      exfalso
      simp only [applyEvent] at hr'
      rw [hr] at hr'
      cases hr'
      exact hrnp hr'p
    | cvWork env =>
      exfalso
      rcases hq : s.cvQueue with _ | ⟨⟨a, b⟩, rest⟩
      · simp only [applyEvent, hq] at hr'
        rw [hr] at hr'
        cases hr'
        exact hrnp hr'p
      · simp only [applyEvent, hq] at hr'
        rw [cvProcessItem_store] at hr'
        rw [hr] at hr'
        cases hr'
        exact hrnp hr'p
    | jdWork env =>
      exfalso
      rcases hq : s.jdQueue with _ | ⟨⟨a, b⟩, rest⟩
      · simp only [applyEvent, hq] at hr'
        rw [hr] at hr'
        cases hr'
        exact hrnp hr'p
      · simp only [applyEvent, hq] at hr'
        rw [hr] at hr'
        cases hr'
        exact hrnp hr'p
    | profWork env =>
      exfalso
      rcases hq : s.profQueue with _ | ⟨⟨a, b, c⟩, rest⟩
      · simp only [applyEvent, hq] at hr'
        rw [hr] at hr'
        cases hr'
        exact hrnp hr'p
      · simp only [applyEvent, hq] at hr'
        have := profilerProcessItem_pending a b c env s.cvStore id r' hr' hr'p
        rw [hr] at this
        cases this
        exact hrnp hr'p
  · intro r hr hrnp r' hr' hr'p
    cases ev with
    | submitCV uid fp now =>
      exfalso
      simp only [applyEvent] at hr'
      rw [hr] at hr'
      cases hr'
      exact hrnp hr'p
    | submitJD rid fp cid now =>
      by_cases hu : rid = id
      · exact ⟨fp, cid, now, by rw [hu]⟩
      · exfalso
        simp only [applyEvent] at hr'
        unfold add_role_profile at hr'
        rw [storeGetJD_upsert] at hr'
        rw [if_neg hu] at hr'
        rw [hr] at hr'
        cases hr'
        exact hrnp hr'p
    | cvWork env =>
      exfalso
      rcases hq : s.cvQueue with _ | ⟨⟨a, b⟩, rest⟩
      · simp only [applyEvent, hq] at hr'
        rw [hr] at hr'
        cases hr'
        exact hrnp hr'p
      · simp only [applyEvent, hq] at hr'
        rw [hr] at hr'
        cases hr'
        exact hrnp hr'p
    | jdWork env =>
      exfalso
      rcases hq : s.jdQueue with _ | ⟨⟨a, b⟩, rest⟩
      · simp only [applyEvent, hq] at hr'
        rw [hr] at hr'
        cases hr'
        exact hrnp hr'p
      · simp only [applyEvent, hq] at hr'
        exact jdProcessItem_no_regress a b env s.jdStore s.listings hjd
          id r r' hr hrnp hr' hr'p
    | profWork env =>
      exfalso
      rcases hq : s.profQueue with _ | ⟨⟨a, b, c⟩, rest⟩
      · simp only [applyEvent, hq] at hr'
        rw [hr] at hr'
        cases hr'
        exact hrnp hr'p
      · simp only [applyEvent, hq] at hr'
        rw [hr] at hr'
        cases hr'
        exact hrnp hr'p

/-- Witness for C1: a concrete resubmission over a FAILED run. -/
theorem C1_status_invariant_witness :
    ∃ fp now, Event.submitCV "u1" "cv2.pdf" 5 = Event.submitCV "u1" fp now :=
  (C1_status_invariant sysWithFailedCV (Event.submitCV "u1" "cv2.pdf" 5) "u1"
      (by decide) (by decide)).2.2.2.1 failedCVRun rfl (by decide)
    { id := "u1", created_at := 5, updated_at := 5, file_path := "cv2.pdf",
      status := CVProfileRunStatus.pending } rfl rfl


/-- C2: for a Listing Pipeline item whose run record exists, (a) a run that
completes without a domain error (PDF, within the page limit, LLM returns a
profile) ends with the transient run record deleted from the store and a
permanent RoleListing appended that carries the run's domain fields, its
creator id and job id; (b) a non-PDF upload ends with the run still present,
status FAILED, the JDFormatError message as status comment, and no listing
created; (c) an over-long PDF likewise ends FAILED with the JDLengthError
message as comment and no listing created. -/
theorem C2_listing_pipeline (s : JDStore) (L : ListingStore)
    (jd_id fp : String) (env : JDEnv) (run : RoleProfileRun)
    (hnd : (s.map RoleProfileRun.id).Nodup)
    (hrun : storeGetJD s jd_id = some run) :
    (∀ rp, pyEndsWith (pyLower fp) ".pdf" = true →
      env.page_count ≤ Configuration.JD_MAX_PAGES →
      env.llm = Except.ok (some rp) →
      storeGetJD (jdProcessItem jd_id fp env s L).1 jd_id = none
      ∧ ∃ listing,
          (jdProcessItem jd_id fp env s L).2 = L ++ [listing]
          ∧ listing.domain = rp.domain
          ∧ listing.creator_id = run.creator_id
          ∧ listing.job_id = run.job_id)
    ∧ (pyEndsWith (pyLower fp) ".pdf" = false →
      ∃ r', storeGetJD (jdProcessItem jd_id fp env s L).1 jd_id = some r'
        ∧ r'.status = RoleListingRunStatus.failed
        ∧ r'.status_comment = some (unsupportedTypeMsg fp)
        ∧ (jdProcessItem jd_id fp env s L).2 = L)
    ∧ (pyEndsWith (pyLower fp) ".pdf" = true →
      env.page_count > Configuration.JD_MAX_PAGES →
      ∃ r', storeGetJD (jdProcessItem jd_id fp env s L).1 jd_id = some r'
        ∧ r'.status = RoleListingRunStatus.failed
        ∧ r'.status_comment = some (jdLengthMsg env.page_count)
        ∧ (jdProcessItem jd_id fp env s L).2 = L) := by
  have hid : run.id = jd_id := storeGetJD_id hrun
  refine ⟨?_, ?_, ?_⟩
  · intro rp hpdf hpc hllm
    unfold jdProcessItem jdStageBody
    simp only [hrun, pyKwCall, acceptsKwargs_jd_touch, if_true]
    unfold update_role_profile
    simp only [hrun]
    rw [if_pos hpdf, if_neg (by omega), hllm]
    simp only [Option.map_some', storeGetJD_upsert, hid, eq_self_iff_true,
      if_true]
    unfold add_role_from_profile
    simp only [ne_eq, eq_self_iff_true, not_true, if_false, ite_false]
    constructor
    · rw [storeGetJD_delete_self
        (nodup_map_id_upsertJD (nodup_map_id_upsertJD hnd))]
    · exact ⟨_, rfl, rfl, rfl, rfl⟩
  · intro hpdf
    unfold jdProcessItem jdStageBody
    simp only [hrun, pyKwCall, acceptsKwargs_jd_touch, acceptsKwargs_jd_fail,
      if_true]
    unfold update_role_profile
    simp only [hrun]
    rw [if_neg (by rw [hpdf]; exact Bool.false_ne_true)]
    simp only [storeGetJD_upsert, hid, eq_self_iff_true, if_true]
    exact ⟨_, rfl, rfl, rfl, trivial⟩
  · intro hpdf hpc
    unfold jdProcessItem jdStageBody
    simp only [hrun, pyKwCall, acceptsKwargs_jd_touch, acceptsKwargs_jd_fail,
      if_true]
    unfold update_role_profile
    simp only [hrun]
    rw [if_pos hpdf, if_pos hpc]
    simp only [storeGetJD_upsert, hid, eq_self_iff_true, if_true]
    exact ⟨_, rfl, rfl, rfl, trivial⟩

/-- Witness for C2: a concrete successful listing run deletes its run
record. -/
theorem C2_listing_pipeline_witness :
    storeGetJD (jdProcessItem "r1" "jd.pdf" okJDEnv [pendingJDRun] []).1
      "r1" = none :=
  ((C2_listing_pipeline [pendingJDRun] [] "r1" "jd.pdf" okJDEnv pendingJDRun
      (by decide) rfl).1 rpFixture (by decide) (by decide) rfl).1

/-- C3: an external-service failure (LLMInferenceError from the vision call
in the CV stage, or from the LLM call in the profiler stage) is caught at
the worker-loop boundary and performs no write to the run record: the whole
system state is unchanged except that the queue item was consumed — the
run's status stays PENDING, there is no FAILED transition and no retry,
and the worker continues with the next item. -/
theorem C3_service_error_leaves_pending (s : SysState) (env : CVEnv)
    (penv : ProfEnv) (m id fp : String) (paras : List String)
    (assess : Option CVDescription) (restC : List (String × String))
    (restP : List ProfItem) :
    (env.vision = Except.error m →
      pyEndsWith (pyLower fp) ".pdf" = true →
      env.page_count ≤ Configuration.CV_MAX_PAGES →
      s.cvQueue = (id, fp) :: restC →
      applyEvent (Event.cvWork env) s = { s with cvQueue := restC })
    ∧ (penv.llm = Except.error m →
      s.profQueue = (id, paras, assess) :: restP →
      applyEvent (Event.profWork penv) s = { s with profQueue := restP }) := by
  constructor
  · intro hv hpdf hpc hq
    simp only [applyEvent, hq]
    have hitem : cvProcessItem id fp env s.cvStore = (s.cvStore, none) := by
      unfold cvProcessItem cvStageBody
      rw [if_pos hpdf, if_neg (by omega), hv]
    rw [hitem]
    simp
  · intro hl hq
    simp only [applyEvent, hq]
    have hitem : profilerProcessItem id paras assess penv s.cvStore =
        s.cvStore := by
      unfold profilerProcessItem
      rw [hl]
    rw [hitem]

/-- Witness for C3: a concrete profiler LLM failure only pops the queue. -/
theorem C3_witness :
    applyEvent (Event.profWork failingProfEnv) sysWithProfItem =
      { sysWithProfItem with profQueue := [] } :=
  (C3_service_error_leaves_pending sysWithProfItem okCVEnv failingProfEnv
      "boom" "u1" "cv.pdf" ["p"] none [] []).2 rfl rfl

/-- C4: evaluation of the code at the failing input — a three-page PDF CV
with CV_MAX_PAGES = 2.  The stage raises the CVLengthError bound to the
item id whose message carries both the observed (3) and maximum (2) page
counts, and the item is not forwarded to the Profiler Stage; but the FAILED
status write in the `except CVError` handler calls update_cv_profile with
keyword `cv_id`, which is not a parameter name of the callee (`user_id`),
so the write raises TypeError and the store is left unchanged: the run
stays PENDING with no status comment, contradicting the claimed FAILED
terminal state. -/
theorem C4_cv_over_length :
    (cvStageBody "u1" "cv.pdf" threePageCVEnv [pendingCVRun]).2 =
      Except.error (PyExc.cvError
        { kind := CVErrKind.lengthError, msg := cvLengthMsg 3,
          cv_id := "u1" })
    ∧ substrB "3" (cvLengthMsg 3) = true
    ∧ substrB "2" (cvLengthMsg 3) = true
    ∧ cvProcessItem "u1" "cv.pdf" threePageCVEnv [pendingCVRun] =
        ([pendingCVRun], none)
    ∧ pendingCVRun.status = CVProfileRunStatus.pending
    ∧ pendingCVRun.status_comment = none := by
  exact ⟨by rfl, by decide, by decide, by rfl, rfl, rfl⟩

/-- C5 (counterexample): the claim quantifies over every worker pool, but
ProfilerWorker.__init__ performs no recovery scan — with a store holding a
PENDING run, the profiler pool enqueues nothing at construction. -/
theorem C5_profiler_no_scan :
    ¬ (∀ (st : CVStore), ∀ r ∈ st, r.status = CVProfileRunStatus.pending →
        ∃ item ∈ profilerPoolInitQueue st, item.1 = r.id) := by
  intro h
  rcases h [pendingCVRun] pendingCVRun (by simp) rfl with ⟨item, hmem, _⟩
  simp [profilerPoolInitQueue] at hmem

/-- C5 (amended): for the Résumé and Listing pools, construction scans the
store for PENDING runs of the stage's kind and enqueues exactly those,
each exactly once (the queue is duplicate-free and contains every pending
run's (id, file path) item), and no run with a terminal status is
enqueued; the Profiler pool performs no recovery scan and enqueues nothing
at construction. -/
theorem C5_pool_recovery_scan (s : CVStore) (t : JDStore)
    (hs : (s.map CVProfileRun.id).Nodup)
    (ht : (t.map RoleProfileRun.id).Nodup) :
    ((cvPoolInitQueue s).Nodup
      ∧ ∀ r ∈ s, r.status = CVProfileRunStatus.pending →
        (r.id, r.file_path) ∈ cvPoolInitQueue s)
    ∧ (∀ r ∈ s, r.status ≠ CVProfileRunStatus.pending →
      ∀ fp, (r.id, fp) ∉ cvPoolInitQueue s)
    ∧ ((jdPoolInitQueue t).Nodup
      ∧ ∀ r ∈ t, r.status = RoleListingRunStatus.pending →
        (r.id, r.file_path) ∈ jdPoolInitQueue t)
    ∧ (∀ r ∈ t, r.status ≠ RoleListingRunStatus.pending →
      ∀ fp, (r.id, fp) ∉ jdPoolInitQueue t)
    ∧ (∀ st : CVStore, profilerPoolInitQueue st = []) := by
  have hqcv : (cvPoolInitQueue s).Nodup := by
    have h1 : ((cvPoolInitQueue s).map Prod.fst).Nodup := by
      unfold cvPoolInitQueue get_pending_cv_profiles
      rw [List.map_map]
      exact hs.sublist ((List.filter_sublist s).map _)
    exact h1.of_map _
  have hqjd : (jdPoolInitQueue t).Nodup := by
    have h1 : ((jdPoolInitQueue t).map Prod.fst).Nodup := by
      unfold jdPoolInitQueue get_pending_role_profiles
      rw [List.map_map]
      exact ht.sublist ((List.filter_sublist t).map _)
    exact h1.of_map _
  refine ⟨⟨hqcv, ?_⟩, ?_, ⟨hqjd, ?_⟩, ?_, fun _ => rfl⟩
  · intro r hr hp
    unfold cvPoolInitQueue get_pending_cv_profiles
    exact List.mem_map_of_mem _
      (List.mem_filter.mpr ⟨hr, decide_eq_true hp⟩)
  · intro r hr hp fp hmem
    unfold cvPoolInitQueue get_pending_cv_profiles at hmem
    rcases List.mem_map.mp hmem with ⟨x, hxf, hxe⟩
    have hx1 : x ∈ s := List.mem_of_mem_filter hxf
    have hx2p := List.of_mem_filter hxf
    have hx2 : x.status = CVProfileRunStatus.pending :=
      of_decide_eq_true hx2p
    have hidx : x.id = r.id := ((Prod.mk.injEq _ _ _ _).mp hxe).1
    have hxr : x = r := List.inj_on_of_nodup_map hs hx1 hr hidx
    rw [hxr] at hx2
    exact hp hx2
  · intro r hr hp
    unfold jdPoolInitQueue get_pending_role_profiles
    exact List.mem_map_of_mem _
      (List.mem_filter.mpr ⟨hr, decide_eq_true hp⟩)
  · intro r hr hp fp hmem
    unfold jdPoolInitQueue get_pending_role_profiles at hmem
    rcases List.mem_map.mp hmem with ⟨x, hxf, hxe⟩
    have hx1 : x ∈ t := List.mem_of_mem_filter hxf
    have hx2p := List.of_mem_filter hxf
    have hx2 : x.status = RoleListingRunStatus.pending :=
      of_decide_eq_true hx2p
    have hidx : x.id = r.id := ((Prod.mk.injEq _ _ _ _).mp hxe).1
    have hxr : x = r := List.inj_on_of_nodup_map ht hx1 hr hidx
    rw [hxr] at hx2
    exact hp hx2

/-- Witness for C5: a pool restarted over three persisted PENDING runs
enqueues them once each. -/
theorem C5_pool_recovery_scan_witness :
    (cvPoolInitQueue [pendingCVRun, pendingCVRunB, pendingCVRunC]).Nodup
    ∧ ("u1", "cv.pdf") ∈
        cvPoolInitQueue [pendingCVRun, pendingCVRunB, pendingCVRunC] :=
  ⟨((C5_pool_recovery_scan [pendingCVRun, pendingCVRunB, pendingCVRunC] []
      (by decide) (by decide)).1).1,
   ((C5_pool_recovery_scan [pendingCVRun, pendingCVRunB, pendingCVRunC] []
      (by decide) (by decide)).1).2 pendingCVRun (by simp) rfl⟩

/-- C6: for consecutive wait() calls on one limiter instance the recorded
call timestamps differ by at least min_interval (with exact sleeps and
non-negative clock drift); the call sleeps for exactly the remaining
interval when it arrives early and does not sleep otherwise; and two
distinct limiter instances (text-LLM vs vision) are independent: waiting
on one leaves the other's timestamp untouched and its sleep duration does
not depend on the other's state. -/
theorem C6_rate_limiter (L : RateLimiter) (now drift : ℚ)
    (hd : 0 ≤ drift) :
    ((L.wait now drift).1.last_call - L.last_call ≥ L.min_interval)
    ∧ ((L.wait now drift).2 =
        if now - L.last_call < L.min_interval then
          L.min_interval - (now - L.last_call)
        else 0)
    ∧ ((L.wait now drift).1.min_interval = L.min_interval)
    ∧ (∀ tl : TwoLimiters,
        (tl.waitLLM now drift).1.vision = tl.vision
        ∧ (tl.waitVision now drift).1.llm = tl.llm
        ∧ ∀ v : RateLimiter,
            (tl.waitLLM now drift).2 =
              (TwoLimiters.waitLLM ⟨tl.llm, v⟩ now drift).2
            ∧ (tl.waitVision now drift).2 =
              (TwoLimiters.waitVision ⟨v, tl.vision⟩ now drift).2) := by
  refine ⟨?_, rfl, rfl, ?_⟩
  · unfold RateLimiter.wait RateLimiter.sleepTime
    dsimp only
    split_ifs with h
    · linarith
    · linarith
  · intro tl
    exact ⟨rfl, rfl, fun v => ⟨rfl, rfl⟩⟩

/-- Witness for C6: a second call half an interval early is pushed to at
least min_interval after the previous recorded call. -/
theorem C6_rate_limiter_witness :
    ((RateLimiter.wait ⟨1, 0⟩ (1 / 2) 0).1.last_call - (0 : ℚ) ≥ 1) :=
  (C6_rate_limiter ⟨1, 0⟩ (1 / 2) 0 (le_refl 0)).1

/-- C7: for a non-empty employment history the average tenure is the
half-to-even rounding of the mean of the per-entry month counts
(end.year − start.year) × 12 + (end.month − start.month) with the
present-day substitution for an end year of 0; the result is within half a
month of the true mean, ties at .5 are resolved half-to-even (a consistent
rule at every .5 boundary), and a single entry 2020-01 → 2022-01 yields
exactly 24 months. -/
theorem C7_average_tenure (now : PyDate) (hist : List Employment)
    (h : hist ≠ []) :
    calculate_average_tenure now hist =
      (roundHalfEven
        (((hist.map (employmentMonths now)).sum : ℚ) / (hist.length : ℚ)) : ℚ)
    ∧ |calculate_average_tenure now hist -
        ((hist.map (employmentMonths now)).sum : ℚ) / (hist.length : ℚ)|
        ≤ 1 / 2
    ∧ (∀ k : ℤ,
        ((hist.map (employmentMonths now)).sum : ℚ) / (hist.length : ℚ) =
          (k : ℚ) + 1 / 2 →
        calculate_average_tenure now hist =
          if k % 2 = 0 then (k : ℚ) else (k : ℚ) + 1)
    ∧ employmentMonths now tenureEntry = 24
    ∧ calculate_average_tenure ⟨7, 2024⟩ [tenureEntry] = 24 := by
  have he : calculate_average_tenure now hist =
      (roundHalfEven
        (((hist.map (employmentMonths now)).sum : ℚ) /
          (hist.length : ℚ)) : ℚ) := by
    unfold calculate_average_tenure
    rw [if_neg h, foldl_add_eq_sum, zero_add]
  have hex : calculate_average_tenure ⟨7, 2024⟩ [tenureEntry] = 24 := by
    have h24 : calculate_average_tenure ⟨7, 2024⟩ [tenureEntry] =
        (roundHalfEven ((24 : ℤ) : ℚ) : ℚ) := by
      unfold calculate_average_tenure
      norm_num [employmentMonths, tenureEntry]
    rw [h24, roundHalfEven_intCast]
    norm_num
  refine ⟨he, ?_, ?_, by norm_num [employmentMonths, tenureEntry], hex⟩
  · rw [he]
    exact abs_roundHalfEven_sub_le _
  · intro k hk
    rw [he, hk, roundHalfEven_int_add_half]
    split_ifs <;> push_cast <;> ring

/-- Witness for C7: the 2020-01 → 2022-01 entry gives exactly 24. -/
theorem C7_average_tenure_witness :
    calculate_average_tenure ⟨7, 2024⟩ [tenureEntry] = 24 :=
  (C7_average_tenure ⟨7, 2024⟩ [tenureEntry] (by simp)).2.2.2.2

/-- C8: the years-of-experience figure is the sum over entries of
(end.year − start.year) + (end.month − start.month)/12 (same present-day
substitution), rounded to the nearest 0.5 year: the result is always a
half-integer within a quarter year of the true sum, and at the tie
boundaries the doubled value ties half-to-even, so x.25 rounds to x and
x.75 rounds to x + 1; a single entry 2020-01 → present with "now" fixed at
2024-07 yields exactly 4.5. -/
theorem C8_years_experience (now : PyDate) (hist : List Employment) :
    calculate_years_experience now hist =
      (roundHalfEven ((hist.map (employmentYears now)).sum * 2) : ℚ) / 2
    ∧ (∃ m : ℤ, calculate_years_experience now hist = (m : ℚ) / 2)
    ∧ |calculate_years_experience now hist -
        (hist.map (employmentYears now)).sum| ≤ 1 / 4
    ∧ (∀ k : ℤ, (hist.map (employmentYears now)).sum = (k : ℚ) + 1 / 4 →
        calculate_years_experience now hist = (k : ℚ))
    ∧ (∀ k : ℤ, (hist.map (employmentYears now)).sum = (k : ℚ) + 3 / 4 →
        calculate_years_experience now hist = (k : ℚ) + 1)
    ∧ calculate_years_experience ⟨7, 2024⟩ [presentEntry] = 9 / 2 := by
  have he : calculate_years_experience now hist =
      (roundHalfEven ((hist.map (employmentYears now)).sum * 2) : ℚ) / 2 := by
    unfold calculate_years_experience
    rw [foldl_add_eq_sum, zero_add]
  have hex : calculate_years_experience ⟨7, 2024⟩ [presentEntry] = 9 / 2 := by
    have h9 : calculate_years_experience ⟨7, 2024⟩ [presentEntry] =
        (roundHalfEven ((9 : ℤ) : ℚ) : ℚ) / 2 := by
      unfold calculate_years_experience
      norm_num [employmentYears, presentEntry]
    rw [h9, roundHalfEven_intCast]
    norm_num
  refine ⟨he, ⟨_, he⟩, ?_, ?_, ?_, hex⟩
  · rw [he]
    have habs := abs_roundHalfEven_sub_le
      ((hist.map (employmentYears now)).sum * 2)
    set r : ℚ := (roundHalfEven ((hist.map (employmentYears now)).sum * 2) : ℚ)
    set S : ℚ := (hist.map (employmentYears now)).sum
    have h2 : r / 2 - S = (r - S * 2) / 2 := by ring
    rw [h2, abs_div]
    rw [abs_of_nonneg (by norm_num : (0 : ℚ) ≤ 2)]
    linarith
  · intro k hk
    rw [he, hk]
    have h2 : ((k : ℚ) + 1 / 4) * 2 = ((2 * k : ℤ) : ℚ) + 1 / 2 := by
      push_cast; ring
    rw [h2, roundHalfEven_int_add_half]
    rw [if_pos (Int.mul_emod_right 2 k)]
    push_cast; ring
  · intro k hk
    rw [he, hk]
    have h2 : ((k : ℚ) + 3 / 4) * 2 = ((2 * k + 1 : ℤ) : ℚ) + 1 / 2 := by
      push_cast; ring
    rw [h2, roundHalfEven_int_add_half]
    rw [if_neg (by omega : ¬ (2 * k + 1) % 2 = 0)]
    push_cast; ring

/-- Witness for C8: a 4.25-year history (tie boundary) rounds to 4.0. -/
theorem C8_years_experience_witness :
    ((List.map (employmentYears ⟨7, 2024⟩) [quarterEntry]).sum =
      ((4 : ℤ) : ℚ) + 1 / 4)
    ∧ calculate_years_experience ⟨7, 2024⟩ [quarterEntry] = ((4 : ℤ) : ℚ) :=
  ⟨by norm_num [employmentYears, quarterEntry],
   (C8_years_experience ⟨7, 2024⟩ [quarterEntry]).2.2.2.1 4
     (by norm_num [employmentYears, quarterEntry])⟩

/-- C9: for each embedded link annotation, if the URI is a substring of
some paragraph of the current list the list is unchanged for that link;
otherwise exactly one synthetic paragraph is appended, containing both the
anchor text and the URI when anchor text is present and the URI alone
otherwise; across the whole scan the original paragraphs are preserved in
order as a prefix of the result. -/
theorem C9_link_annotations (paras : List String) (a : LinkAnnot) :
    (paras.any (fun p => substrB a.uri p) = true →
      appendLinkParagraph paras a = paras)
    ∧ (paras.any (fun p => substrB a.uri p) = false →
      appendLinkParagraph paras a = paras ++ [syntheticLinkParagraph a]
      ∧ substrB a.uri (syntheticLinkParagraph a) = true
      ∧ (linkedText a ≠ "" →
          substrB (linkedText a) (syntheticLinkParagraph a) = true))
    ∧ (∀ links : List LinkAnnot, ∃ added,
        processLinks paras links = paras ++ added) := by
  refine ⟨?_, ?_, ?_⟩
  · intro h
    unfold appendLinkParagraph
    rw [if_pos h]
  · intro h
    refine ⟨?_, ?_, ?_⟩
    · unfold appendLinkParagraph
      rw [if_neg (by rw [h]; exact Bool.false_ne_true)]
    · unfold syntheticLinkParagraph
      by_cases ht : linkedText a ≠ ""
      · rw [if_pos ht]
        refine substrB_of_split _ _
          (("\n[Found link: " ++ sq ++ linkedText a ++ sq ++ " -> ").data)
          ("]".data) ?_
        simp [str_data_append, List.append_assoc]
      · rw [if_neg ht]
        refine substrB_of_split _ _ ("\n[Found link: ".data) ("]".data) ?_
        simp [str_data_append, List.append_assoc]
    · intro ht
      unfold syntheticLinkParagraph
      rw [if_pos ht]
      refine substrB_of_split _ _ (("\n[Found link: " ++ sq).data)
        ((sq ++ " -> " ++ a.uri ++ "]").data) ?_
      simp [str_data_append, List.append_assoc]
  · have haux : ∀ (links : List LinkAnnot) (ps : List String), ∃ added,
        processLinks ps links = ps ++ added := by
      intro links
      induction links with
      | nil => exact fun ps => ⟨[], by simp [processLinks]⟩
      | cons l ls ih =>
        intro ps
        have hstep : processLinks ps (l :: ls) =
            processLinks (appendLinkParagraph ps l) ls := by
          unfold processLinks
          rw [List.foldl_cons]
        by_cases hc : ps.any (fun p => substrB l.uri p) = true
        · have hkeep : appendLinkParagraph ps l = ps := by
            unfold appendLinkParagraph
            rw [if_pos hc]
          rcases ih ps with ⟨added, ha⟩
          exact ⟨added, by rw [hstep, hkeep, ha]⟩
        · have happ : appendLinkParagraph ps l =
              ps ++ [syntheticLinkParagraph l] := by
            unfold appendLinkParagraph
            rw [if_neg hc]
          rcases ih (ps ++ [syntheticLinkParagraph l]) with ⟨added, ha⟩
          exact ⟨[syntheticLinkParagraph l] ++ added,
            by rw [hstep, happ, ha, List.append_assoc]⟩
    exact fun links => haux links paras

/-- Witness for C9: a link absent from the paragraphs appends exactly one
synthetic paragraph. -/
theorem C9_link_annotations_witness :
    appendLinkParagraph ["plain"] ⟨"http://x.com", some "My Site", none⟩ =
      ["plain"] ++
        [syntheticLinkParagraph ⟨"http://x.com", some "My Site", none⟩] :=
  ((C9_link_annotations ["plain"]
      ⟨"http://x.com", some "My Site", none⟩).2.1 (by decide)).1

/-- C10: evaluation of the code when the vision service returns no
assessment (describe_doc_pages yields None on a model refusal).  The claim
says the CV stage still hands (id, paragraphs, None) to the Profiler; in
the code the stage write-back that precedes the hand-off raises TypeError
(keyword `cv_id` vs parameter `user_id`), so the item is never handed off
and the run stays PENDING.  The claim's conclusion does hold: the Profiler
Stage never writes COMPLETED or FAILED for an item whose creativity
assessment is None — if it did receive one, evaluating the None
assessment's score fields would raise before the completion write. -/
theorem C10_vision_refusal :
    cvProcessItem "u1" "cv.pdf" refusalCVEnv [pendingCVRun] =
      ([pendingCVRun], none)
    ∧ (∀ (paras : List String) (env : ProfEnv) (st : CVStore),
        profilerProcessItem "u1" paras none env st = st) := by
  refine ⟨by rfl, ?_⟩
  intro paras env st
  unfold profilerProcessItem
  cases henv : env.llm with
  | error m => rfl
  | ok profile => rfl

end AIRecruit
